import Mathlib

/-!
Verification development for the KindleNRead repository
(`src/rss_converter/rss_to_kindle.py` and `src/rss_converter/RSS_script.py`).

The Python code is shallowly embedded: pure computations become Lean
functions; network and SMTP effects are passed in explicitly as oracle
values (`FetchResult`, `DeliveryOutcome`); BeautifulSoup documents are
modelled as a tree of elements and text nodes.
-/

namespace KindleNRead

/-! ## Python string primitives

Executable models of the Python string operations the scripts use
(`str.strip`, `str.replace`, `separator.join`).  They are defined over
`List Char` so that concrete instances reduce inside the kernel. -/

/-- Whitespace characters recognised by Python's `str.strip()`
(the ASCII subset, which is all that occurs in this pipeline). -/
def pyIsSpace (c : Char) : Bool :=
  c = ' ' || c = '\t' || c = '\n' || c = '\r' || c = '\x0b' || c = '\x0c'

/-- Python `s.strip()`: remove leading and trailing whitespace. -/
def pyStrip (s : String) : String :=
  ⟨((s.data.dropWhile pyIsSpace).reverse.dropWhile pyIsSpace).reverse⟩

/-- Left-to-right, non-overlapping replacement of `old` (nonempty) by `new`,
with explicit fuel so the definition is structural and reduces.
`fuel` is an upper bound on the number of scan steps; each step consumes
at least one character of the input. -/
def replaceFuel (old new : List Char) : Nat → List Char → List Char
  | 0, l => l
  | _ + 1, [] => []
  | fuel + 1, c :: rest =>
    if old.isPrefixOf (c :: rest) then
      new ++ replaceFuel old new fuel ((c :: rest).drop old.length)
    else
      c :: replaceFuel old new fuel rest

/-- Python `s.replace(old, new)` for nonempty `old`. -/
def pyReplace (s old new : String) : String :=
  ⟨replaceFuel old.data new.data s.data.length s.data⟩

/-- Python `sep.join(parts)`. -/
def joinSep (sep : String) : List String → String
  | [] => ""
  | [s] => s
  | s :: t :: rest => s ++ sep ++ joinSep sep (t :: rest)

/-! ## HTML document model (BeautifulSoup)

A parsed page is a list of top-level nodes; an element node carries its
tag name, the tokens of its `class` attribute, and its children. -/

inductive Html where
  | text : String → Html
  | elem : String → List String → List Html → Html

mutual

/-- All raw text-node strings of a subtree, in document order
(the `NavigableString`s visited by `Tag.strings`). -/
def rawTexts : Html → List String
  | .text s => [s]
  | .elem _ _ cs => rawTextsList cs

def rawTextsList : List Html → List String
  | [] => []
  | h :: t => rawTexts h ++ rawTextsList t

end

mutual

/-- Text strings as produced by `get_text(..., strip=True)`: each text node
stripped of surrounding whitespace, whitespace-only nodes skipped. -/
def strippedTexts : Html → List String
  | .text s => if pyStrip s = "" then [] else [pyStrip s]
  | .elem _ _ cs => strippedTextsList cs

def strippedTextsList : List Html → List String
  | [] => []
  | h :: t => strippedTexts h ++ strippedTextsList t

end

/-- `Tag.get_text(separator=sep, strip=True)`:
join the stripped text strings with `sep`. -/
def get_text (sep : String) (h : Html) : String :=
  joinSep sep (strippedTexts h)

/-- Python truthiness of a bs4 node: `Tag.__len__` is the number of
children, so an element is truthy iff it has children; a
`NavigableString` is truthy iff nonempty. -/
def truthy : Html → Bool
  | .text s => s ≠ ""
  | .elem _ _ cs => !cs.isEmpty

/-- Does a node match `soup.find(tag)` for tag name `t`? -/
def isTagName (t : String) : Html → Bool
  | .text _ => false
  | .elem tag _ _ => tag = t

/-- Does a node match `soup.find('div', class_=c)`? (an element whose
`class` attribute contains the token `c`). -/
def isDivCls (c : String) : Html → Bool
  | .text _ => false
  | .elem tag classes _ => tag = "div" && classes.contains c

mutual

/-- Depth-first, pre-order search for the first node satisfying `p`
(the bs4 `find` traversal order) within one node (the node itself
included). -/
def findNode (p : Html → Bool) : Html → Option Html
  | .text s => if p (.text s) then some (.text s) else none
  | .elem tag classes cs =>
    if p (.elem tag classes cs) then some (.elem tag classes cs)
    else findInList p cs

/-- `soup.find(...)` over a forest of top-level nodes. -/
def findInList (p : Html → Bool) : List Html → Option Html
  | [] => none
  | h :: t =>
    match findNode p h with
    | some r => some r
    | none => findInList p t

end

/-- A `div` carrying class `post-labels`: what
`article_body.find_all("div", class post-labels)` matches and
`decompose()` removes. -/
def isLabelDiv (h : Html) : Bool := isDivCls "post-labels" h

mutual

/-- Remove every `post-labels` div strictly below the given node
(`find_all` searches descendants only; `decompose` removes the whole
subtree). -/
def pruneLabels : Html → Html
  | .text s => .text s
  | .elem tag classes cs => .elem tag classes (pruneList cs)

def pruneList : List Html → List Html
  | [] => []
  | h :: t =>
    if isLabelDiv h then pruneList t
    else pruneLabels h :: pruneList t

end

mutual

/-- The stripped text strings that sit inside (maximal) `post-labels`
divs strictly below the given node — exactly the strings that
`decompose()` deletes before `get_text` runs. -/
def labelTexts : Html → List String
  | .text _ => []
  | .elem _ _ cs => labelTextsList cs

def labelTextsList : List Html → List String
  | [] => []
  | h :: t =>
    (if isLabelDiv h then strippedTexts h else labelTexts h) ++ labelTextsList t

end

/-! ## `rss_to_kindle.py` -/

/-- The separator handed to `get_text` in `extract_article_content`.
The Python source writes the literal `'\\n'`, i.e. the two-character
sequence backslash–`n`, not a newline. -/
def SEP : String := "\\n"

/-- Outcome of `requests.get(url)` + `raise_for_status()` + parsing:
either a parsed document (forest of top-level nodes) or the message of
the raised `RequestException`. -/
inductive FetchResult where
  | ok : List Html → FetchResult
  | err : String → FetchResult

/-- Python `x or y` on optional bs4 nodes: the first operand is kept
when it is non-`None` and truthy, otherwise the second is used. -/
def pyOr (a b : Option Html) : Option Html :=
  match a with
  | some h => if truthy h then some h else b
  | none => b

/-- The generic fallback chain of `extract_article_content`:
`soup.find('article') or soup.find('div', class_='content') or
soup.find('div', class_='post')`, followed by the truthiness test
`if article_body:`. -/
def fallback_chain (doc : List Html) : String :=
  match pyOr (findInList (isTagName "article") doc)
      (pyOr (findInList (isDivCls "content") doc)
        (findInList (isDivCls "post") doc)) with
  | some b => if truthy b then get_text SEP b else "Could not extract article content."
  | none => "Could not extract article content."

/-- `extract_article_content(article_url)` from `rss_to_kindle.py`,
with the HTTP fetch abstracted into a `FetchResult`:
on a `RequestException` the function returns the error text; otherwise
it tries the `post-body` div (decomposing nested `post-labels` divs),
then the generic fallback chain, and finally the fixed failure string. -/
def extract_article_content (r : FetchResult) : String :=
  match r with
  | .err e => "Error fetching article: " ++ e
  | .ok doc =>
    match findInList (isDivCls "post-body") doc with
    | some body =>
      if truthy body then get_text SEP (pruneLabels body)
      else fallback_chain doc
    | none => fallback_chain doc

/-- No extraction heuristic matches on a parsed page: the `post-body`
div is absent or falsy, and so is the whole generic fallback chain —
exactly the condition under which `extract_article_content` reaches its
final `return "Could not extract article content."`. -/
def heuristic_failed (doc : List Html) : Bool :=
  (match findInList (isDivCls "post-body") doc with
   | some b => !truthy b
   | none => true)
  && (match pyOr (findInList (isTagName "article") doc)
        (pyOr (findInList (isDivCls "content") doc)
          (findInList (isDivCls "post") doc)) with
      | some b => !truthy b
      | none => true)

/-- A feed entry as returned by `parse_rss_feed`: title and link. -/
structure KEntry where
  title : String
  link : String
deriving DecidableEq

/-- `parse_rss_feed(feed_url)`: rebuilds each `feed.entries` item as a
dict with the entry's title and link, in feed order, without sorting or
truncation. -/
def parse_rss_feed (entries : List KEntry) : List KEntry :=
  entries.map (fun e => { title := e.title, link := e.link })

/-- One element of `articles_with_content` in `main`: a title plus the
extracted content string. -/
structure ContentArticle where
  title : String
  content : String
deriving DecidableEq

/-- The body of `main`'s processing loop for one article:
extract the content (via the fetch oracle) and replace every literal
`'\\n'` by `'<br>'`. -/
def process_article (fetch : String → FetchResult) (a : KEntry) : ContentArticle :=
  { title := a.title
    content := pyReplace (extract_article_content (fetch a.link)) SEP "<br>" }

/-- `main`'s `articles_with_content` list: the first `max_articles`
parsed entries, each processed by `process_article`. -/
def articles_with_content (fetch : String → FetchResult) (entries : List KEntry)
    (max_articles : Nat) : List ContentArticle :=
  ((parse_rss_feed entries).take max_articles).map (process_article fetch)

/-- The HTML string assembled by `convert_to_pdf` and handed to
`pdfkit.from_string`. -/
def convert_to_pdf_html (articles : List ContentArticle) : String :=
  "<html><head><meta charset=\x27utf-8\x27></head><body>"
    ++ String.join (articles.map (fun a =>
        "<h1>" ++ a.title ++ "</h1>" ++ "<div>" ++ a.content ++ "</div>" ++ "<hr>"))
    ++ "</body></html>"

/-- Python truthiness of `args.sender_email` / `args.sender_password`:
`None` (missing from both arguments and environment) and the empty
string are falsy. -/
def truthyOpt : Option String → Bool
  | none => false
  | some s => s ≠ ""

/-- Outcome of the SMTP conversation attempted inside `send_email` /
`send_to_kindle` (connect + starttls + login + send): success, or the
message of the raised exception. -/
inductive DeliveryOutcome where
  | ok : DeliveryOutcome
  | err : String → DeliveryOutcome

/-- Observable effects of one run of `rss_to_kindle.py`'s `main`. -/
structure RunEffects where
  /-- `convert_to_pdf` was reached (the PDF step is not skipped). -/
  pdf_attempted : Bool
  /-- `pdfkit.from_string` succeeded and the file exists on disk. -/
  pdf_written : Bool
  /-- the script deleted the output file (it never does). -/
  pdf_removed : Bool
  /-- `smtplib.SMTP(...)` was reached inside `send_email`, i.e. an SMTP
  session was attempted (requires `send_email` being called AND its
  attachment `open` succeeding first). -/
  smtp_attempted : Bool
  /-- the SMTP conversation completed without an exception. -/
  email_sent : Bool
  /-- the "Email sending is skipped" notice was printed. -/
  notice_printed : Bool
  /-- the process exit code.  `main` never calls `sys.exit` and the
  exceptions of `convert_to_pdf` and of the SMTP conversation are caught
  and printed; but `send_email` opens the attachment file OUTSIDE its
  `try` block, so when credentials are set and the PDF file was never
  produced, the `FileNotFoundError` escapes and the interpreter exits
  non-zero. -/
  exit_code : Nat
deriving DecidableEq

/-- The effect trace of `main` in `rss_to_kindle.py`.  `pdf_ok` is the
outcome of `pdfkit.from_string` (its exception is caught and printed, so
on failure the output file does not exist); `delivery` is the outcome of
the SMTP conversation (its exception is caught and printed).  When
`parsed_articles` is empty the whole `if parsed_articles:` block is
skipped.  When credentials are truthy, `send_email` is called; its
`with open(attachment_path, "rb")` sits before the `try` block, so a
missing PDF file raises an uncaught `FileNotFoundError` there (exit code
1, nothing sent); only once the file is open does the guarded SMTP
conversation start. -/
def main_effects (entries : List KEntry) (pdf_ok : Bool)
    (sender_email sender_password : Option String)
    (delivery : DeliveryOutcome) : RunEffects :=
  if (parse_rss_feed entries).isEmpty then
    { pdf_attempted := false, pdf_written := false, pdf_removed := false
      smtp_attempted := false, email_sent := false, notice_printed := false
      exit_code := 0 }
  else
    let creds := truthyOpt sender_email && truthyOpt sender_password
    { pdf_attempted := true
      pdf_written := pdf_ok
      pdf_removed := false
      smtp_attempted := creds && pdf_ok
      email_sent := creds && pdf_ok
        && (match delivery with | .ok => true | .err _ => false)
      notice_printed := !creds
      exit_code := if creds && !pdf_ok then 1 else 0 }

/-! ## `RSS_script.py`

Timestamps are modelled as integers (`datetime` values under an
order-preserving encoding); `datetime.now()` and `timedelta(days=...)`
become explicit integer parameters. -/

/-- A raw feed entry as seen by `fetch_articles`.
`published_parsed = none` models the cases where
`datetime(*entry.published_parsed[:6])` raises (field missing or
malformed), which the `except` clause catches. -/
structure RawEntry where
  title : String
  link : String
  published_parsed : Option Int
deriving DecidableEq

/-- One configured feed together with the entries `feedparser.parse`
returns for its URL (the network is inlined as data). -/
structure Feed where
  name : String
  url : String
  entries : List RawEntry
deriving DecidableEq

/-- An article dict appended by `fetch_articles`. -/
structure FeedArticle where
  title : String
  url : String
  feed_name : String
  date : Int
deriving DecidableEq

/-- `fetch_articles(feeds, max_articles, days_old)` from `RSS_script.py`:
for each feed, iterate over the first `max_articles` entries; parse the
publication date (an exception drops the entry); keep the entry iff
`pub_date >= cutoff_date` where `cutoff_date = now - days_old`. -/
def fetch_articles (feeds : List Feed) (max_articles : Nat)
    (days_old now : Int) : List FeedArticle :=
  feeds.flatMap (fun feed =>
    (feed.entries.take max_articles).filterMap (fun entry =>
      match entry.published_parsed with
      | none => none
      | some d =>
        if now - days_old ≤ d then
          some { title := entry.title, url := entry.link
                 feed_name := feed.name, date := d }
        else none))

/-- An article dict as consumed by `create_epub`: `content` is absent
when `extract_content` failed (it returns `None` without setting the
key).  The `datetime` is carried as the already-formatted
`strftime("%Y-%m-%d %H:%M")` string, which is all `create_epub` uses. -/
structure EArticle where
  title : String
  feed_name : String
  dateStr : String
  content : Option String
deriving DecidableEq

/-- One chapter added to the EPUB book. -/
structure Chapter where
  title : String
  file_name : String
  content_html : String
deriving DecidableEq

/-- The chapter body built by `create_epub` for one article
(the f-string's interpolations in source order; the literal indentation
whitespace of the triple-quoted template is elided). -/
def chapter_html (a : EArticle) (s : String) : String :=
  "<h1>" ++ a.title ++ "</h1>"
    ++ "<p><em>Source: " ++ a.feed_name ++ "</em></p>"
    ++ "<p><em>Date: " ++ a.dateStr ++ "</em></p>"
    ++ "<hr/>"
    ++ "<div>" ++ pyReplace s "\n" "</p><p>" ++ "</div>"

/-- The chapter list built by `create_epub`'s loop
`for idx, article in enumerate(articles): if article and
article.get(content_key): ...`.  The index advances for every element;
`None` elements and articles whose `content` is absent or empty (falsy)
produce no chapter. -/
def create_epub_chapters : Nat → List (Option EArticle) → List Chapter
  | _, [] => []
  | idx, none :: rest => create_epub_chapters (idx + 1) rest
  | idx, some a :: rest =>
    match a.content with
    | none => create_epub_chapters (idx + 1) rest
    | some s =>
      if s = "" then create_epub_chapters (idx + 1) rest
      else
        { title := a.title
          file_name := "article_" ++ toString idx ++ ".xhtml"
          content_html := chapter_html a s } :: create_epub_chapters (idx + 1) rest

/-! ## Helper lemmas -/

/-- Shuffling the middle of an append is a permutation. -/
theorem append_swap_perm {α : Type} (A B C : List α) :
    List.Perm (A ++ (B ++ C)) (B ++ (A ++ C)) := by
  have h : List.Perm ((A ++ B) ++ C) ((B ++ A) ++ C) :=
    List.Perm.append_right C List.perm_append_comm
  simpa [List.append_assoc] using h

mutual

/-- Decomposing the `post-labels` divs splits the stripped text strings of a
subtree into the surviving ones and the label ones, up to permutation. -/
theorem prune_perm (h : Html) :
    List.Perm (strippedTexts (pruneLabels h) ++ labelTexts h) (strippedTexts h) := by
  cases h with
  | text s => simp [pruneLabels, labelTexts]
  | elem tag classes cs =>
    simpa [pruneLabels, labelTexts, strippedTexts] using prune_perm_list cs

theorem prune_perm_list (cs : List Html) :
    List.Perm (strippedTextsList (pruneList cs) ++ labelTextsList cs)
      (strippedTextsList cs) := by
  cases cs with
  | nil => simp [pruneList, labelTextsList, strippedTextsList]
  | cons h t =>
    by_cases hl : isLabelDiv h
    · simp only [pruneList, labelTextsList, strippedTextsList, if_pos hl]
      exact (append_swap_perm _ _ _).trans
        (List.Perm.append_left _ (prune_perm_list t))
    · simp only [pruneList, labelTextsList, strippedTextsList, if_neg hl,
        List.append_assoc]
      refine List.Perm.trans (List.Perm.append_left _ (append_swap_perm _ _ _)) ?_
      simpa [List.append_assoc] using
        List.Perm.append (prune_perm h) (prune_perm_list t)

end

mutual

/-- `get_text(..., strip=True)`'s text list is the raw text-node list with
each node stripped and whitespace-only nodes dropped. -/
theorem strippedTexts_eq_filter (h : Html) :
    strippedTexts h = ((rawTexts h).map pyStrip).filter (fun s => s != "") := by
  cases h with
  | text s =>
    by_cases hs : pyStrip s = "" <;>
      simp [strippedTexts, rawTexts, hs]
  | elem tag classes cs =>
    simpa [strippedTexts, rawTexts] using strippedTextsList_eq_filter cs

theorem strippedTextsList_eq_filter (cs : List Html) :
    strippedTextsList cs = ((rawTextsList cs).map pyStrip).filter (fun s => s != "") := by
  cases cs with
  | nil => simp [strippedTextsList, rawTextsList]
  | cons h t =>
    simp [strippedTextsList, rawTextsList, List.filter_append,
      strippedTexts_eq_filter h, strippedTextsList_eq_filter t]

end

/-- If the generic fallback chain produced nothing truthy,
`fallback_chain` returns the fixed failure string. -/
theorem fallback_chain_failed (doc : List Html)
    (h : ∀ b, pyOr (findInList (isTagName "article") doc)
        (pyOr (findInList (isDivCls "content") doc)
          (findInList (isDivCls "post") doc)) = some b → truthy b = false) :
    fallback_chain doc = "Could not extract article content." := by
  unfold fallback_chain
  cases hfb : pyOr (findInList (isTagName "article") doc)
      (pyOr (findInList (isDivCls "content") doc)
        (findInList (isDivCls "post") doc)) with
  | none => rfl
  | some b => simp [h b hfb]

/-- When no heuristic matches (`heuristic_failed`), the extraction
returns the fixed failure string. -/
theorem extract_failed_of_heuristic_failed (doc : List Html)
    (h : heuristic_failed doc = true) :
    extract_article_content (.ok doc) = "Could not extract article content." := by
  rw [heuristic_failed, Bool.and_eq_true] at h
  have hfb : fallback_chain doc = "Could not extract article content." := by
    refine fallback_chain_failed doc (fun b hb => ?_)
    have h2 := h.2
    rw [hb] at h2
    simpa using h2
  simp only [extract_article_content]
  cases hpb : findInList (isDivCls "post-body") doc with
  | none => exact hfb
  | some b =>
    have h1 := h.1
    rw [hpb] at h1
    simp only [Bool.not_eq_eq_eq_not, Bool.not_true] at h1
    simp [h1, hfb]

/-! ## Claims -/

/-- C1 (counterexample): in `rss_to_kindle.py`, an article whose HTTP fetch
fails is NOT excluded from the rendered document: `extract_article_content`
returns the error text, `main` keeps the article, and the error text appears
verbatim as the article's content in the HTML handed to `pdfkit`. -/
theorem extraction_error_text_rendered :
    articles_with_content (fun _ => .err "boom") [⟨"T", "u"⟩] 10
      = [⟨"T", "Error fetching article: boom"⟩]
    ∧ convert_to_pdf_html (articles_with_content (fun _ => .err "boom") [⟨"T", "u"⟩] 10)
      = "<html><head><meta charset=\x27utf-8\x27></head><body><h1>T</h1><div>Error fetching article: boom</div><hr></body></html>" :=
  ⟨rfl, rfl⟩

/-- C1 (amended): every entry among the first `max_articles` parsed entries —
including those whose extraction fails in either mode — yields an article in
the list handed to `convert_to_pdf`: an entry whose fetch raised a
`RequestException` carries `Error fetching article: ...` as its content, and
an entry whose page matches no extraction heuristic carries
`Could not extract article content.`.  The run does continue with the
remaining articles; it is only the exclusion from the document that fails to
hold. -/
theorem failed_extraction_articles_still_rendered
    (fetch : String → FetchResult) (entries : List KEntry) (maxA : Nat)
    (e : KEntry)
    (he : e ∈ (parse_rss_feed entries).take maxA) :
    process_article fetch e ∈ articles_with_content fetch entries maxA
    ∧ (∀ m, fetch e.link = .err m →
        (process_article fetch e).content
          = pyReplace ("Error fetching article: " ++ m) SEP "<br>")
    ∧ (∀ doc, fetch e.link = .ok doc → heuristic_failed doc = true →
        (process_article fetch e).content = "Could not extract article content.") := by
  refine ⟨List.mem_map_of_mem _ he, ?_, ?_⟩
  · intro m hm
    simp [process_article, extract_article_content, hm]
  · intro doc hdoc hfail
    simp only [process_article, hdoc, extract_failed_of_heuristic_failed doc hfail]
    decide

/-- Witness for C1 (amended): a two-entry feed where the first article's
fetch fails and the second article's page matches no heuristic; both are
rendered, each with the respective error text as content. -/
theorem failed_extraction_articles_still_rendered_witness :
    (process_article (fun l => if l = "u" then .err "boom" else .ok []) ⟨"T", "u"⟩
        ∈ articles_with_content (fun l => if l = "u" then .err "boom" else .ok [])
            [⟨"T", "u"⟩, ⟨"U", "v"⟩] 10
      ∧ (process_article (fun l => if l = "u" then .err "boom" else .ok [])
            ⟨"T", "u"⟩).content
          = pyReplace ("Error fetching article: " ++ "boom") SEP "<br>")
    ∧ (process_article (fun l => if l = "u" then .err "boom" else .ok []) ⟨"U", "v"⟩
        ∈ articles_with_content (fun l => if l = "u" then .err "boom" else .ok [])
            [⟨"T", "u"⟩, ⟨"U", "v"⟩] 10
      ∧ (process_article (fun l => if l = "u" then .err "boom" else .ok [])
            ⟨"U", "v"⟩).content
          = "Could not extract article content.") := by
  constructor
  · exact ⟨(failed_extraction_articles_still_rendered
        (fun l => if l = "u" then .err "boom" else .ok [])
        [⟨"T", "u"⟩, ⟨"U", "v"⟩] 10 ⟨"T", "u"⟩ (by decide)).1,
      (failed_extraction_articles_still_rendered
        (fun l => if l = "u" then .err "boom" else .ok [])
        [⟨"T", "u"⟩, ⟨"U", "v"⟩] 10 ⟨"T", "u"⟩ (by decide)).2.1 "boom" rfl⟩
  · exact ⟨(failed_extraction_articles_still_rendered
        (fun l => if l = "u" then .err "boom" else .ok [])
        [⟨"T", "u"⟩, ⟨"U", "v"⟩] 10 ⟨"U", "v"⟩ (by decide)).1,
      (failed_extraction_articles_still_rendered
        (fun l => if l = "u" then .err "boom" else .ok [])
        [⟨"T", "u"⟩, ⟨"U", "v"⟩] 10 ⟨"U", "v"⟩ (by decide)).2.2 [] rfl (by decide)⟩

/-- C2 (counterexample): in `RSS_script.py`, a feed entry whose publication
date cannot be parsed is NOT kept with an absent `publishedAt`: the
`except` clause swallows the exception before `articles.append`, so the
entry vanishes from `fetch_articles`' result entirely. -/
theorem unparseable_date_entry_dropped :
    fetch_articles [⟨"Tech News", "u", [⟨"t", "l", none⟩]⟩] 5 1 10 = [] := rfl

/-- C2 (amended): entries whose publication date cannot be parsed are
discarded at the fetch stage (an error is printed), also in feeds that mix
parseable and unparseable entries: an article is in `fetch_articles`' result
exactly when it stems from an entry, within the per-feed cap, whose date
parsed and lies within the cutoff — so no output article ever stems from an
unparseable entry. -/
theorem fetch_articles_mem_iff
    (feeds : List Feed) (maxA : Nat) (days now : Int) (a : FeedArticle) :
    a ∈ fetch_articles feeds maxA days now
      ↔ ∃ feed ∈ feeds, ∃ e ∈ feed.entries.take maxA,
          e.published_parsed = some a.date ∧ a.title = e.title ∧ a.url = e.link
            ∧ a.feed_name = feed.name ∧ now - days ≤ a.date := by
  constructor
  · intro hmem
    simp only [fetch_articles, List.mem_flatMap] at hmem
    obtain ⟨feed, hfeed, hmem'⟩ := hmem
    simp only [List.mem_filterMap] at hmem'
    obtain ⟨e, he, hfe⟩ := hmem'
    split at hfe
    · exact absurd hfe (by simp)
    · split at hfe
      · rename_i d hpd hcut
        obtain rfl := Option.some.inj hfe
        exact ⟨feed, hfeed, e, he, hpd, rfl, rfl, rfl, hcut⟩
      · exact absurd hfe (by simp)
  · rintro ⟨feed, hfeed, e, he, hpd, ht, hu, hf, hcut⟩
    obtain ⟨t0, u0, f0, d0⟩ := a
    simp only at ht hu hf hpd hcut
    subst ht; subst hu; subst hf
    simp only [fetch_articles, List.mem_flatMap]
    refine ⟨feed, hfeed, List.mem_filterMap.mpr ⟨e, he, ?_⟩⟩
    simp [hpd]
    omega

/-- Witness for C2 (amended): in a feed mixing an unparseable-date entry
with a parseable one, the parsed entry's article is in the result (the
counterexample shows the unparseable one is not). -/
theorem fetch_articles_mem_iff_witness :
    (⟨"t", "l", "f", 9⟩ : FeedArticle)
      ∈ fetch_articles [⟨"f", "u", [⟨"s", "m", none⟩, ⟨"t", "l", some 9⟩]⟩] 5 3 10 :=
  (fetch_articles_mem_iff [⟨"f", "u", [⟨"s", "m", none⟩, ⟨"t", "l", some 9⟩]⟩]
      5 3 10 ⟨"t", "l", "f", 9⟩).mpr
    ⟨⟨"f", "u", [⟨"s", "m", none⟩, ⟨"t", "l", some 9⟩]⟩, by decide,
     ⟨"t", "l", some 9⟩, by decide, rfl, rfl, rfl, rfl, by decide⟩

/-- C3 (counterexample): with valid credentials, a produced PDF and an
unreachable SMTP host, the email is not sent, the document remains on disk —
and the process exit code is `0`, not non-zero as claimed. -/
theorem delivery_failure_exit_code_zero :
    (main_effects [⟨"T", "u"⟩] true (some "s") (some "pw") (.err "unreachable")).email_sent
        = false
    ∧ (main_effects [⟨"T", "u"⟩] true (some "s") (some "pw") (.err "unreachable")).pdf_written
        = true
    ∧ (main_effects [⟨"T", "u"⟩] true (some "s") (some "pw") (.err "unreachable")).pdf_removed
        = false
    ∧ (main_effects [⟨"T", "u"⟩] true (some "s") (some "pw") (.err "unreachable")).exit_code
        = 0 :=
  ⟨rfl, rfl, rfl, rfl⟩

/-- C3 (amended): a delivery (SMTP) failure does not make the run fail:
the exception is caught and printed, the process exits zero and the
document file remains on disk.  The exit code is non-zero exactly when
articles were parsed, credentials are provided, and the PDF file was never
produced — then `send_email` crashes with an uncaught `FileNotFoundError`
while opening the missing attachment (the `open` sits outside its `try`
block).  In every other case — an empty feed, missing credentials even with
no document produced, or failed extractions — the process exits zero. -/
theorem main_exit_code_spec (entries : List KEntry) (pdf_ok : Bool)
    (se sp : Option String) (d : DeliveryOutcome) :
    ((main_effects entries pdf_ok se sp d).exit_code ≠ 0
      ↔ (parse_rss_feed entries).isEmpty = false
        ∧ (truthyOpt se && truthyOpt sp) = true ∧ pdf_ok = false)
    ∧ (main_effects entries pdf_ok se sp d).pdf_removed = false := by
  unfold main_effects
  split
  · rename_i hemp
    refine ⟨?_, rfl⟩
    simp [hemp]
  · rename_i hemp
    refine ⟨?_, rfl⟩
    rw [Bool.not_eq_true] at hemp
    by_cases hc : (truthyOpt se && truthyOpt sp) = true
    · cases pdf_ok <;> simp_all
    · simp_all

/-- C4: the extraction heuristics are tried in fixed priority order with
first match winning; in particular, on a page with no `post-body` marker
whose first generic match is an `<article>` element (with content, hence
truthy), extraction returns that element's text rather than the failure
string. -/
theorem article_fallback_used (doc : List Html) (a : Html)
    (hpb : findInList (isDivCls "post-body") doc = none)
    (hart : findInList (isTagName "article") doc = some a)
    (htr : truthy a = true) :
    extract_article_content (.ok doc) = get_text SEP a := by
  simp [extract_article_content, hpb, fallback_chain, hart, pyOr, htr]

/-- Witness for C4: a document containing only an `<article>` element. -/
theorem article_fallback_used_witness :
    extract_article_content (.ok [.elem "article" [] [.text "hello"]])
      = get_text SEP (.elem "article" [] [.text "hello"]) :=
  article_fallback_used [.elem "article" [] [.text "hello"]]
    (.elem "article" [] [.text "hello"]) rfl rfl rfl

/-- C5: the age filter is inclusive at the boundary: an entry (among the
first `max_articles` of its feed) with a parsed publication date `d` yields
an article in `fetch_articles`' result iff `now - days_old ≤ d`; in
particular `d = now - days_old` is retained and strictly older entries are
not. -/
theorem age_filter_inclusive_boundary
    (feeds : List Feed) (maxA : Nat) (days now d : Int)
    (feed : Feed) (entry : RawEntry)
    (hfeed : feed ∈ feeds) (hentry : entry ∈ feed.entries.take maxA)
    (hd : entry.published_parsed = some d) :
    (⟨entry.title, entry.link, feed.name, d⟩ : FeedArticle)
        ∈ fetch_articles feeds maxA days now ↔ now - days ≤ d := by
  constructor
  · intro hmem
    simp only [fetch_articles, List.mem_flatMap] at hmem
    obtain ⟨feed', hfeed', hmem'⟩ := hmem
    simp only [List.mem_filterMap] at hmem'
    obtain ⟨e', he', hfe⟩ := hmem'
    split at hfe
    · exact absurd hfe (by simp)
    · split at hfe
      · rename_i hcut
        have hdd : _ = d := congrArg FeedArticle.date (Option.some.inj hfe)
        simp only at hdd
        omega
      · exact absurd hfe (by simp)
  · intro hcut
    simp only [fetch_articles, List.mem_flatMap]
    refine ⟨feed, hfeed, List.mem_filterMap.mpr ⟨entry, hentry, ?_⟩⟩
    simp [hd]
    omega

/-- Witness for C5: an entry exactly at the cutoff (`now = 10`, `days_old =
3`, date `7`) is retained. -/
theorem age_filter_inclusive_boundary_witness :
    (⟨"t", "l", "f", 7⟩ : FeedArticle)
      ∈ fetch_articles [⟨"f", "u", [⟨"t", "l", some 7⟩]⟩] 5 3 10 :=
  (age_filter_inclusive_boundary [⟨"f", "u", [⟨"t", "l", some 7⟩]⟩] 5 3 10 7
    ⟨"f", "u", [⟨"t", "l", some 7⟩]⟩ ⟨"t", "l", some 7⟩
    (by decide) (by decide) rfl).mpr (by decide)

/-- C6: the pipeline processes at most the first `max_articles` entries of
the feed, exactly as `parse_rss_feed` lists them (a prefix of the feed: no
re-sorting, no padding, no fabrication); when the feed has fewer than
`max_articles` entries every one of them is processed. -/
theorem feed_reader_take_first_limit
    (fetch : String → FetchResult) (entries : List KEntry) (maxA : Nat) :
    ((parse_rss_feed entries).take maxA).length ≤ maxA
    ∧ (∃ rest, parse_rss_feed entries = (parse_rss_feed entries).take maxA ++ rest)
    ∧ (entries.length ≤ maxA → (parse_rss_feed entries).take maxA = parse_rss_feed entries)
    ∧ articles_with_content fetch entries maxA
        = ((parse_rss_feed entries).take maxA).map (process_article fetch) := by
  refine ⟨?_, ⟨(parse_rss_feed entries).drop maxA, (List.take_append_drop _ _).symm⟩, ?_, rfl⟩
  · rw [List.length_take]
    exact Nat.min_le_left _ _
  · intro hle
    exact List.take_of_length_le (by simpa [parse_rss_feed] using hle)

/-- Witness for C6: a feed with 2 entries and limit 5 keeps both, in order. -/
theorem feed_reader_take_first_limit_witness :
    ((parse_rss_feed [⟨"a", "1"⟩, ⟨"b", "2"⟩]).take 5).length ≤ 5
    ∧ (parse_rss_feed [⟨"a", "1"⟩, ⟨"b", "2"⟩]).take 5
        = parse_rss_feed [⟨"a", "1"⟩, ⟨"b", "2"⟩] :=
  ⟨(feed_reader_take_first_limit (fun _ => .err "e") [⟨"a", "1"⟩, ⟨"b", "2"⟩] 5).1,
   (feed_reader_take_first_limit (fun _ => .err "e") [⟨"a", "1"⟩, ⟨"b", "2"⟩] 5).2.2.1
     (by decide)⟩

/-- C7 (counterexample): the `get_text` separator is NOT a newline
character: the source passes the Python literal backslash–`n`, so two text
nodes `" a "` and `"b"` join to the four-character string `a`, `\`, `n`,
`b`, which differs from the newline join. -/
theorem separator_not_newline :
    extract_article_content (.ok [.elem "article" [] [.text " a ", .text "b"]]) = "a\\nb"
    ∧ ("a\\nb" : String) ≠ "a\nb"
    ∧ ("a\\nb" : String) = "a" ++ "\\n" ++ "b" :=
  ⟨rfl, by decide, rfl⟩

/-- C7 (amended): text extraction joins the visible text nodes with the
two-character sequence backslash–`n` (the Python literal `'\\n'`, which
`main` later rewrites to `<br>`) as separator, stripping surrounding
whitespace from each node and dropping whitespace-only nodes. -/
theorem get_text_joins_stripped_texts (h : Html) :
    get_text SEP h
      = joinSep "\\n" (((rawTexts h).map pyStrip).filter (fun s => s != "")) := by
  simp [get_text, SEP, strippedTexts_eq_filter]

/-- C8: every text occurrence inside a `post-labels` div below the
`post-body` container is removed by `decompose()`: the multiset of text
strings that `get_text` sees splits exactly into surviving plus label
occurrences, and a string occurring only inside `post-labels` divs does not
occur in the extracted content at all. -/
theorem post_labels_text_excluded (body : Html) (s : String)
    (_hin : s ∈ labelTexts body)
    (honly : List.count s (strippedTexts body) = List.count s (labelTexts body)) :
    s ∉ strippedTexts (pruneLabels body)
    ∧ List.count s (strippedTexts (pruneLabels body)) + List.count s (labelTexts body)
        = List.count s (strippedTexts body) := by
  have hperm := (prune_perm body).count_eq s
  rw [List.count_append] at hperm
  constructor
  · rw [← List.count_eq_zero]
    omega
  · exact hperm

/-- Witness for C8: a `post-body` div with a nested `post-labels` div whose
text `lab` is absent from the extraction. -/
theorem post_labels_text_excluded_witness :
    ("lab" : String) ∉ strippedTexts (pruneLabels (.elem "div" ["post-body"]
        [.text "keep", .elem "div" ["post-labels"] [.text "lab"]]))
    ∧ List.count "lab" (strippedTexts (pruneLabels (.elem "div" ["post-body"]
          [.text "keep", .elem "div" ["post-labels"] [.text "lab"]])))
        + List.count "lab" (labelTexts (.elem "div" ["post-body"]
          [.text "keep", .elem "div" ["post-labels"] [.text "lab"]]))
      = List.count "lab" (strippedTexts (.elem "div" ["post-body"]
          [.text "keep", .elem "div" ["post-labels"] [.text "lab"]])) :=
  post_labels_text_excluded _ "lab" (by decide) (by decide)

/-- C9: every chapter of the EPUB built by `create_epub` comes from an
article with non-empty content: `None` results and articles with absent or
empty content produce no section. -/
theorem rendered_sections_have_content
    (arts : List (Option EArticle)) (idx : Nat) (c : Chapter)
    (hc : c ∈ create_epub_chapters idx arts) :
    ∃ a s, some a ∈ arts ∧ a.content = some s ∧ s ≠ ""
      ∧ c.title = a.title ∧ c.content_html = chapter_html a s := by
  induction arts generalizing idx with
  | nil => simp [create_epub_chapters] at hc
  | cons x rest ih =>
    cases x with
    | none =>
      simp only [create_epub_chapters] at hc
      obtain ⟨a, s, h1, h2⟩ := ih (idx + 1) hc
      exact ⟨a, s, List.mem_cons_of_mem _ h1, h2⟩
    | some a0 =>
      cases hcont : a0.content with
      | none =>
        simp only [create_epub_chapters, hcont] at hc
        obtain ⟨a, s, h1, h2⟩ := ih (idx + 1) hc
        exact ⟨a, s, List.mem_cons_of_mem _ h1, h2⟩
      | some s0 =>
        simp only [create_epub_chapters, hcont] at hc
        by_cases hs : s0 = ""
        · rw [if_pos hs] at hc
          obtain ⟨a, s, h1, h2⟩ := ih (idx + 1) hc
          exact ⟨a, s, List.mem_cons_of_mem _ h1, h2⟩
        · rw [if_neg hs] at hc
          rcases List.mem_cons.mp hc with hceq | hc'
          · subst hceq
            exact ⟨a0, s0, List.mem_cons_self _ _, hcont, hs, rfl, rfl⟩
          · obtain ⟨a, s, h1, h2⟩ := ih (idx + 1) hc'
            exact ⟨a, s, List.mem_cons_of_mem _ h1, h2⟩

/-- Witness for C9 at a singleton article list with non-empty content. -/
theorem rendered_sections_have_content_witness :
    ∃ a s, some a ∈ [some (⟨"T", "F", "D", some "x"⟩ : EArticle)]
      ∧ a.content = some s ∧ s ≠ ""
      ∧ (⟨"T", "article_0.xhtml",
            chapter_html ⟨"T", "F", "D", some "x"⟩ "x"⟩ : Chapter).title = a.title
      ∧ (⟨"T", "article_0.xhtml",
            chapter_html ⟨"T", "F", "D", some "x"⟩ "x"⟩ : Chapter).content_html
          = chapter_html a s :=
  rendered_sections_have_content [some ⟨"T", "F", "D", some "x"⟩] 0 _ (by decide)

/-- C10: when the sender email or the sender password is missing (or empty),
`main` still reaches the PDF step (the PDF is produced whenever `pdfkit`
succeeds), never calls `send_email` — so no SMTP session is attempted —
prints the skip notice instead, and exits with code `0`. -/
theorem missing_credentials_skip_delivery
    (entries : List KEntry) (pdf_ok : Bool) (se sp : Option String)
    (d : DeliveryOutcome)
    (hne : entries ≠ [])
    (hcred : truthyOpt se = false ∨ truthyOpt sp = false) :
    (main_effects entries pdf_ok se sp d).pdf_attempted = true
    ∧ (main_effects entries pdf_ok se sp d).pdf_written = pdf_ok
    ∧ (main_effects entries pdf_ok se sp d).smtp_attempted = false
    ∧ (main_effects entries pdf_ok se sp d).email_sent = false
    ∧ (main_effects entries pdf_ok se sp d).notice_printed = true
    ∧ (main_effects entries pdf_ok se sp d).exit_code = 0 := by
  have hne' : (parse_rss_feed entries).isEmpty = false := by
    simp [parse_rss_feed, hne]
  have hcred' : (truthyOpt se && truthyOpt sp) = false := by
    rcases hcred with h | h <;> simp [h]
  simp [main_effects, hne', hcred']

/-- Witness for C10: missing sender email, PDF produced, no SMTP attempt. -/
theorem missing_credentials_skip_delivery_witness :
    (main_effects [⟨"T", "u"⟩] true none (some "pw") .ok).pdf_attempted = true
    ∧ (main_effects [⟨"T", "u"⟩] true none (some "pw") .ok).pdf_written = true
    ∧ (main_effects [⟨"T", "u"⟩] true none (some "pw") .ok).smtp_attempted = false
    ∧ (main_effects [⟨"T", "u"⟩] true none (some "pw") .ok).email_sent = false
    ∧ (main_effects [⟨"T", "u"⟩] true none (some "pw") .ok).notice_printed = true
    ∧ (main_effects [⟨"T", "u"⟩] true none (some "pw") .ok).exit_code = 0 :=
  missing_credentials_skip_delivery [⟨"T", "u"⟩] true none (some "pw") .ok
    (by decide) (Or.inl rfl)

end KindleNRead
